import Mathlib

/-!
Verification of the GitHub integration core of this repository:
the webhook receiver (`sweagent/github/bot.py`), the cost governor
(`sweagent/github/cost.py`) and the persistent state store
(`sweagent/github/state.py`), shallowly embedded in Lean.

Conventions of the embedding:
* wall-clock timestamps (`datetime.utcnow()`) are passed explicitly as an
  `Int` number of seconds; `timedelta(hours=h)` is `h * 3600` seconds and
  `timedelta(days=d)` is `d * 86400` seconds;
* Python floats carrying costs are modelled as `ℚ` (the costs involved are
  small decimal amounts, and the claims are about sums and comparisons,
  not rounding);
* fallible Python code returns `Except PyErr _`, with `PyErr` naming the
  exception class raised;
* SQLite tables are lists of rows in insertion order; `PRAGMA
  foreign_keys = ON` (set in `GitHubState._get_conn`) is modelled by an
  explicit child-row check on `DELETE FROM events`.
-/

/-- Python exception classes raised by the embedded code. -/
inductive PyErr where
  | zeroDivisionError
  | valueError
  | typeError
  | keyError
  | jsonDecodeError
  | unsupportedEventError
  | agentError
  deriving DecidableEq, Repr

deriving instance DecidableEq for Except

/-! ## Event payloads (`dict` payloads of `bot.py` / `cost.py`) -/

/-- A subject object (`issue` / `pull_request` / `discussion`) inside a
GitHub event payload: the fields the source reads. -/
structure Subject where
  number : Int
  title : String
  deriving DecidableEq, Repr

/-- A GitHub event payload, restricted to the keys the source reads.
`none` models an absent key. -/
structure Event where
  event_name : Option String := none
  action : Option String := none
  issue : Option Subject := none
  pull_request : Option Subject := none
  discussion : Option Subject := none
  deriving DecidableEq, Repr

/-- Stand-in for Python's `hash(str(event))`, the dedup-key fallback for
events without a recognizable subject (`cost.py::_get_event_id`).  The
source's hash is an implementation detail of CPython; what matters for the
claims is that it is a deterministic function of the full event content,
which this polynomial string hash is. -/
def eventHash (e : Event) : Int :=
  ((toString (repr e)).toList.foldl (fun h c => (h * 31 + c.toNat) % 1000000007) 7 : Nat)

/-! ## `state.py` — the State Store -/

/-- A row of the `events` table. -/
structure EventRow where
  id : String
  type_ : String
  action : String
  created_at : Int
  processed_at : Option Int := none
  cost : Option ℚ := none
  tokens : Option Int := none
  deriving DecidableEq, Repr

/-- A row of the `cost_tracking` journal table. -/
structure CostRow where
  event_id : String
  timestamp : Int
  cost : ℚ
  tokens : Int
  deriving DecidableEq, Repr

/-- The JSON blob stored in `model_states.state`: the `_updated_at` key
(`some t` when present with a timestamp `datetime.fromisoformat` accepts,
`none` when absent or unparseable) plus the remaining key/value pairs.
The Python dict is empty — falsy — exactly when both parts are empty. -/
structure StateBlob where
  updatedAt : Option Int := none
  data : List (String × String) := []
  deriving DecidableEq, Repr

/-- Python dict falsiness: `if not state: ...`. -/
def StateBlob.isEmptyDict (b : StateBlob) : Bool :=
  b.updatedAt = none && b.data = []

/-- A row of the `model_states` table. -/
structure ModelStateRow where
  event_id : String
  state : StateBlob
  updated_at : Int
  deriving DecidableEq, Repr

/-- Class `GitHubState`: the SQLite-backed store, as its three tables plus the
configured target. -/
structure GitHubState where
  target_hourly_cost : ℚ := 10
  events : List EventRow := []
  model_states : List ModelStateRow := []
  cost_tracking : List CostRow := []
  deriving DecidableEq, Repr

namespace GitHubState

/-- Method `save_event`: `INSERT OR IGNORE INTO events` — a row whose primary key
already exists is left untouched. -/
def save_event (db : GitHubState) (event_id event_type action : String)
    (created_at : Int) : GitHubState :=
  if db.events.any (fun r => r.id = event_id) then db
  else { db with events :=
    db.events ++ [{ id := event_id, type_ := event_type, action := action,
                    created_at := created_at }] }

/-- Method `mark_event_processed`: updates the event row and appends one
`cost_tracking` journal row, in one transaction.  (The journal row's
foreign key is not re-checked here; concrete stores in this development
journal only ids whose event row exists, as `save_event` precedes.) -/
def mark_event_processed (db : GitHubState) (now : Int) (event_id : String)
    (cost : ℚ) (tokens : Int) : GitHubState :=
  { db with
    events := db.events.map (fun r =>
      if r.id = event_id then
        { r with processed_at := some now, cost := some cost, tokens := some tokens }
      else r),
    cost_tracking := db.cost_tracking ++
      [{ event_id := event_id, timestamp := now, cost := cost, tokens := tokens }] }

/-- Method `save_model_state`: `INSERT OR REPLACE INTO model_states`. -/
def save_model_state (db : GitHubState) (now : Int) (event_id : String)
    (state : StateBlob) : GitHubState :=
  if db.model_states.any (fun r => r.event_id = event_id) then
    { db with model_states := db.model_states.map (fun r =>
        if r.event_id = event_id then
          { r with state := state, updated_at := now }
        else r) }
  else
    { db with model_states :=
        db.model_states ++ [{ event_id := event_id, state := state, updated_at := now }] }

/-- Method `get_model_state`: point lookup by primary key. -/
def get_model_state (db : GitHubState) (event_id : String) : Option StateBlob :=
  (db.model_states.find? (fun r => r.event_id = event_id)).map (·.state)

/-- The journal rows inside the trailing window:
`WHERE timestamp >= ?` with `? = now - hours*3600`. -/
def windowRows (db : GitHubState) (now : Int) (hours : Nat) : List CostRow :=
  db.cost_tracking.filter (fun r => now - hours * 3600 ≤ r.timestamp)

/-- Method `get_hourly_cost`: `SELECT SUM(cost) / ? FROM cost_tracking WHERE
timestamp >= ?`.  With no rows in the window `SUM` is SQL `NULL`, and with
`hours = 0` the division yields SQL `NULL`; either way `row[0] or 0.0`
turns the result into `0.0`. -/
def get_hourly_cost (db : GitHubState) (now : Int) (hours : Nat := 1) : ℚ :=
  let rows := db.windowRows now hours
  if rows.isEmpty ∨ hours = 0 then 0
  else (rows.map (·.cost)).sum / hours

/-- Method `is_cost_efficient`: hourly cost at the default 1-hour window is at or
under the target. -/
def is_cost_efficient (db : GitHubState) (now : Int) : Bool :=
  db.get_hourly_cost now 1 ≤ db.target_hourly_cost

/-- Method `cleanup_old_events`: within one transaction, delete journal rows with
`timestamp < cutoff`, then model states of events with `created_at <
cutoff`, then those events themselves, returning the event delete count.
`PRAGMA foreign_keys = ON` makes the final `DELETE FROM events` fail when a
surviving `cost_tracking` row still references a deleted event; the
`except` clause then rolls the whole transaction back (the store is
returned unchanged) and re-raises. -/
def cleanup_old_events (db : GitHubState) (now : Int) (days : Nat := 30) :
    Except PyErr Nat × GitHubState :=
  let cutoff := now - days * 86400
  let ct' := db.cost_tracking.filter (fun r => ¬ r.timestamp < cutoff)
  let oldIds := (db.events.filter (fun e => e.created_at < cutoff)).map (·.id)
  let ms' := db.model_states.filter (fun m => ¬ oldIds.contains m.event_id)
  if ct'.any (fun r => oldIds.contains r.event_id) then
    (Except.error PyErr.valueError, db)
  else
    (Except.ok oldIds.length,
     { db with cost_tracking := ct', model_states := ms',
               events := db.events.filter (fun e => ¬ e.created_at < cutoff) })

end GitHubState

/-! ## `cost.py` — the Cost Governor -/

/-- Class `GitHubCostOptimizer`: configuration plus the in-memory runtime
tracking fields set up in `__init__`. -/
structure GitHubCostOptimizer where
  target_hourly_cost : ℚ := 10
  max_batch_size : Nat := 5
  cache_ttl : Int := 3600
  current_batch : List Event := []
  processed_events : List String := []
  rate_limit_window : Int := 3600
  rate_limit_tokens : Int := 100
  rate_limit_last_reset : Int := 0
  deriving DecidableEq, Repr

namespace GitHubCostOptimizer

/-- Method `_get_event_id`: `event_name` (default `"unknown"`) plus the subject
number, trying `issue`, `pull_request`, `discussion` in that order; events
without a recognizable subject fall back to a content hash. -/
def get_event_id (e : Event) : String :=
  let t := e.event_name.getD "unknown"
  match e.issue with
  | some s => t ++ "-" ++ toString s.number
  | none => match e.pull_request with
    | some s => t ++ "-" ++ toString s.number
    | none => match e.discussion with
      | some s => t ++ "-" ++ toString s.number
      | none => t ++ "-" ++ toString (eventHash e)

/-- Method `_check_rate_limit`: lazily reset the fixed window when its deadline
has passed, then report whether tokens remain.  Mutates the optimizer, so
the updated optimizer is returned alongside the verdict. -/
def check_rate_limit (o : GitHubCostOptimizer) (now : Int) :
    Bool × GitHubCostOptimizer :=
  let o' :=
    if o.rate_limit_window ≤ now - o.rate_limit_last_reset then
      { o with rate_limit_tokens := 100, rate_limit_last_reset := now }
    else o
  (0 < o'.rate_limit_tokens, o')

/-- Method `should_process_event`: dedup set first (returning immediately, the
store untouched), then the store's cost-efficiency gate, then the
in-memory rate limit. -/
def should_process_event (o : GitHubCostOptimizer) (db : GitHubState)
    (now : Int) (e : Event) : Bool × GitHubCostOptimizer :=
  if o.processed_events.contains (get_event_id e) then (false, o)
  else if ¬ db.is_cost_efficient now then (false, o)
  else o.check_rate_limit now

/-- Method `add_to_batch`: while the batch is below `max_batch_size`, append the
event, add its identity to the dedup set and report `False`; once the
batch is full, report `True` without touching anything. -/
def add_to_batch (o : GitHubCostOptimizer) (e : Event) :
    Bool × GitHubCostOptimizer :=
  if o.current_batch.length < o.max_batch_size then
    (false, { o with
      current_batch := o.current_batch ++ [e],
      processed_events :=
        if o.processed_events.contains (get_event_id e) then o.processed_events
        else o.processed_events ++ [get_event_id e] })
  else (true, o)

/-- Method `get_batch`: hand the accumulated batch to the caller and clear it. -/
def get_batch (o : GitHubCostOptimizer) :
    List Event × GitHubCostOptimizer :=
  (o.current_batch, { o with current_batch := [] })

/-- Method `track_processing`: split cost and tokens evenly over the given ids
(`/` on the float cost, `//` on the integer tokens — both raise
`ZeroDivisionError` on an empty id list, before any store write or token
decrement), write one `mark_event_processed` per id, then decrement the
rate-limit budget by the id count. -/
def track_processing (o : GitHubCostOptimizer) (db : GitHubState)
    (now : Int) (event_ids : List String) (cost : ℚ) (tokens : Int) :
    Except PyErr (GitHubCostOptimizer × GitHubState) :=
  let n := event_ids.length
  if n = 0 then Except.error PyErr.zeroDivisionError
  else
    let cost_per_event := cost / n
    let tokens_per_event := Int.fdiv tokens n
    let db' := event_ids.foldl
      (fun d eid => d.mark_event_processed now eid cost_per_event tokens_per_event) db
    Except.ok ({ o with rate_limit_tokens := o.rate_limit_tokens - n }, db')

/-- Python `datetime.fromisoformat` applied to `state.get("_updated_at", "")`:
raises `ValueError` when the field is absent or unparseable (in
particular on the `""` default). -/
def fromisoformat (v : Option Int) : Except PyErr Int :=
  match v with
  | none => Except.error PyErr.valueError
  | some t => Except.ok t

/-- Method `get_cached_state`: absent row or falsy (empty) blob → `none`;
otherwise parse `_updated_at` (raising `ValueError` when missing or
unparseable) and treat entries older than the TTL as absent. -/
def get_cached_state (o : GitHubCostOptimizer) (db : GitHubState)
    (now : Int) (event_id : String) : Except PyErr (Option StateBlob) :=
  match db.get_model_state event_id with
  | none => Except.ok none
  | some st =>
    if st.isEmptyDict then Except.ok none
    else match fromisoformat st.updatedAt with
      | Except.error e => Except.error e
      | Except.ok updated_at =>
        if o.cache_ttl < now - updated_at then Except.ok none
        else Except.ok (some st)

/-- Method `cache_state`: stamp the blob with the current time, then upsert it
through the store. -/
def cache_state (o : GitHubCostOptimizer) (db : GitHubState) (now : Int)
    (event_id : String) (st : StateBlob) : GitHubState :=
  db.save_model_state now event_id { st with updatedAt := some now }

end GitHubCostOptimizer

/-! ## SHA-256 and HMAC-SHA256

`bot.py::_verify_signature` calls Python's `hashlib.sha256` /
`hmac.new(..).hexdigest()`.  These primitives are embedded here directly
(FIPS 180-4 / RFC 2104) over byte lists (`Nat` values below 256); the
implementation is validated in-file against published test vectors. -/

def w32 (x : Nat) : Nat := x % 4294967296

def rotr (n x : Nat) : Nat := w32 ((x >>> n) ||| (x <<< (32 - n)))

def bnot32 (x : Nat) : Nat := 4294967295 ^^^ x

def bigS0 (x : Nat) : Nat := rotr 2 x ^^^ rotr 13 x ^^^ rotr 22 x
def bigS1 (x : Nat) : Nat := rotr 6 x ^^^ rotr 11 x ^^^ rotr 25 x
def smallS0 (x : Nat) : Nat := rotr 7 x ^^^ rotr 18 x ^^^ (x >>> 3)
def smallS1 (x : Nat) : Nat := rotr 17 x ^^^ rotr 19 x ^^^ (x >>> 10)

def chF (x y z : Nat) : Nat := (x &&& y) ^^^ (bnot32 x &&& z)
def majF (x y z : Nat) : Nat := (x &&& y) ^^^ (x &&& z) ^^^ (y &&& z)

/-- The 64 SHA-256 round constants of FIPS 180-4 (the fractional parts of
the cube roots of the first 64 primes), written in decimal. -/
def shaK : List Nat :=
  [1116352408, 1899447441, 3049323471, 3921009573, 961987163, 1508970993,
   2453635748, 2870763221, 3624381080, 310598401, 607225278, 1426881987,
   1925078388, 2162078206, 2614888103, 3248222580, 3835390401, 4022224774,
   264347078, 604807628, 770255983, 1249150122, 1555081692, 1996064986,
   2554220882, 2821834349, 2952996808, 3210313671, 3336571891, 3584528711,
   113926993, 338241895, 666307205, 773529912, 1294757372, 1396182291,
   1695183700, 1986661051, 2177026350, 2456956037, 2730485921, 2820302411,
   3259730800, 3345764771, 3516065817, 3600352804, 4094571909, 275423344,
   430227734, 506948616, 659060556, 883997877, 958139571, 1322822218,
   1537002063, 1747873779, 1955562222, 2024104815, 2227730452, 2361852424,
   2428436474, 2756734187, 3204031479, 3329325298]

/-- The SHA-256 initial hash state of FIPS 180-4 (the fractional parts of
the square roots of the first 8 primes), written in decimal. -/
def shaH0 : List Nat :=
  [1779033703, 3144134277, 1013904242, 2773480762,
   1359893119, 2600822924, 528734635, 1541459225]

/-- Big-endian 4-byte grouping into 32-bit words. -/
def bytesToWords : List Nat → List Nat
  | b0 :: b1 :: b2 :: b3 :: rest =>
    (((b0 * 256 + b1) * 256 + b2) * 256 + b3) :: bytesToWords rest
  | _ => []

/-- Message schedule: 16 words extended to 64.  The schedule is kept
reversed so the recently produced words sit at the head. -/
def extendSchedule : Nat → List Nat → List Nat
  | 0, wrev => wrev.reverse
  | n + 1, wrev =>
    let t2 := wrev.getD 1 0
    let t7 := wrev.getD 6 0
    let t15 := wrev.getD 14 0
    let t16 := wrev.getD 15 0
    extendSchedule n (w32 (smallS1 t2 + t7 + smallS0 t15 + t16) :: wrev)

/-- One SHA-256 compression round. -/
def shaRound (st : List Nat) (kw : Nat × Nat) : List Nat :=
  match st with
  | [a, b, c, d, e, f, g, h] =>
    let t1 := w32 (h + bigS1 e + chF e f g + kw.1 + kw.2)
    let t2 := w32 (bigS0 a + majF a b c)
    [w32 (t1 + t2), a, b, c, w32 (d + t1), e, f, g]
  | st => st

/-- Compress one 64-byte block into the running hash state. -/
def compress (h : List Nat) (block : List Nat) : List Nat :=
  let ws := extendSchedule 48 (bytesToWords block).reverse
  let st := (shaK.zip ws).foldl (fun s kw => shaRound s kw.swap) h
  (h.zip st).map (fun p => w32 (p.1 + p.2))

/-- Split into 64-byte blocks; the fuel argument (instantiated with the
list length) keeps the recursion structural. -/
def chunks64Aux : Nat → List Nat → List (List Nat)
  | _, [] => []
  | 0, l => [l]
  | fuel + 1, c :: rest => (c :: rest).take 64 :: chunks64Aux fuel (rest.drop 63)

def chunks64 (l : List Nat) : List (List Nat) := chunks64Aux l.length l

/-- SHA-256 padding: `0x80`, zeros, then the 8-byte big-endian bit
length. -/
def shaPad (msg : List Nat) : List Nat :=
  let L := msg.length
  let zeros := (64 - (L + 9) % 64) % 64
  let bits := 8 * L
  msg ++ [0x80] ++ List.replicate zeros 0 ++
    [(bits >>> 56) % 256, (bits >>> 48) % 256, (bits >>> 40) % 256,
     (bits >>> 32) % 256, (bits >>> 24) % 256, (bits >>> 16) % 256,
     (bits >>> 8) % 256, bits % 256]

def wordsToBytes (ws : List Nat) : List Nat :=
  ws.flatMap (fun w => [(w >>> 24) % 256, (w >>> 16) % 256, (w >>> 8) % 256, w % 256])

/-- SHA-256 of a byte list, as 32 bytes. -/
def sha256 (msg : List Nat) : List Nat :=
  wordsToBytes ((chunks64 (shaPad msg)).foldl compress shaH0)

/-- Lower-case hex digit, as produced by `hexdigest()`. -/
def hexChar (n : Nat) : Char :=
  Char.ofNat (if n < 10 then 48 + n else 87 + n)

def bytesToHex (bs : List Nat) : List Char :=
  bs.flatMap (fun b => [hexChar (b / 16 % 16), hexChar (b % 16)])

/-- HMAC-SHA256 (RFC 2104): `hmac.new(key, msg, hashlib.sha256)`. -/
def hmacSha256 (key msg : List Nat) : List Nat :=
  let k0 := if 64 < key.length then sha256 key else key
  let k := k0 ++ List.replicate (64 - k0.length) 0
  sha256 ((k.map (· ^^^ 0x5c)) ++ sha256 ((k.map (· ^^^ 0x36)) ++ msg))

/-- Python `hmac.new(key, msg, hashlib.sha256).hexdigest()`. -/
def hmacSha256Hex (key msg : List Nat) : List Char :=
  bytesToHex (hmacSha256 key msg)

/-- Python `str.encode()` on ASCII strings. -/
def strBytes (s : String) : List Nat := s.toList.map Char.toNat

/-! ## `bot.py` — the Webhook Receiver and Event Router -/

/-- Python `str.replace(pat, repl)`: replace every non-overlapping
occurrence, scanning left to right.  Used with the nonempty pattern
`"sha256="`; the fuel argument (instantiated with the string length)
keeps the recursion structural. -/
def pyReplaceAux (pat repl : List Char) : Nat → List Char → List Char
  | _, [] => []
  | 0, s => s
  | fuel + 1, c :: rest =>
    if pat.isPrefixOf (c :: rest) ∧ pat ≠ [] then
      repl ++ pyReplaceAux pat repl fuel (rest.drop (pat.length - 1))
    else c :: pyReplaceAux pat repl fuel rest

def pyReplace (s pat repl : List Char) : List Char :=
  pyReplaceAux pat repl s.length s

/-- The fixed scheme tag `"sha256="`. -/
def schemeTag : List Char := "sha256=".toList

/-- Python `hmac.compare_digest` on two `str` arguments: a constant-time
equality that is only defined for ASCII strings — a non-ASCII character in
either argument raises `TypeError`. -/
def compare_digest (a b : List Char) : Except PyErr Bool :=
  if a.all (fun c => c.toNat < 128) ∧ b.all (fun c => c.toNat < 128) then
    Except.ok (decide (a = b))
  else Except.error PyErr.typeError

/-- Method `_verify_signature`: require the scheme tag prefix, strip the
tag via `str.replace`, and compare against the expected hex HMAC-SHA256 of
the raw payload under the shared secret with `hmac.compare_digest`.
`http.server` decodes header bytes as iso-8859-1, so the received value
can contain non-ASCII characters, on which `compare_digest` raises
`TypeError` (modelled as `Except.error`). -/
def verify_signature (secret payload : List Nat) (signature : List Char) :
    Except PyErr Bool :=
  if ¬ schemeTag.isPrefixOf signature then Except.ok false
  else
    let expected := hmacSha256Hex secret payload
    let received := pyReplace signature schemeTag []
    compare_digest expected received

/-- Outcome of `json.loads` on the request body followed by the handler's
use of the result: the body is either not valid JSON (`json.JSONDecodeError`),
valid JSON but not an object (so that `event["event_name"] = ...` raises
`TypeError`), or a JSON object, embedded as an `Event`. -/
inductive JsonParse where
  | malformed
  | nonObject
  | obj (e : Event)
  deriving DecidableEq, Repr

/-- An inbound HTTP POST, as the handler reads it: the `Content-Length`
header (`none` when absent or not a valid integer — `int()` then raises
before anything else happens), the raw body bytes on the wire, and the two
headers `do_POST` consults (`none` models an absent header, read through
`headers.get(..., "")`). -/
structure Request where
  contentLength : Option Nat
  body : List Nat
  signature256 : Option (List Char)
  eventType : Option String
  deriving Repr

/-- The observable world outside the HTTP response: how many times
`agent.run()` has been invoked, and the event last passed to
`hook.set_current_event`. -/
structure BotWorld where
  agentRuns : Nat := 0
  currentEvent : Option Event := none
  deriving DecidableEq, Repr

/-- Table `GitHubBotRouter.SUPPORTED_EVENTS`. -/
def SUPPORTED_EVENTS : List (String × List String) :=
  [("issues", ["opened", "edited"]),
   ("pull_request", ["opened", "synchronize"]),
   ("discussion", ["created", "edited"])]

/-- Method `_validate_event`: `UnsupportedEventError` when the event name is not a
key of the supported table or the action is not in that type's list. -/
def validate_event (e : Event) : Except PyErr Unit :=
  match SUPPORTED_EVENTS.find? (fun p => some p.1 = e.event_name) with
  | none => Except.error PyErr.unsupportedEventError
  | some (_, actions) =>
    if (e.action.map actions.contains).getD false then Except.ok ()
    else Except.error PyErr.unsupportedEventError

/-- The common body of `_handle_issue` / `_handle_pull_request` /
`_handle_discussion`: read the subject object (`KeyError` when the key is
absent), `hook.set_current_event(event)`, then `agent.run()`.  The
external agent is modelled by `agentOk`: when false, `run` raises after
being invoked. -/
def handleSubject (agentOk : Bool) (w : BotWorld) (e : Event)
    (subject : Option Subject) : Except PyErr Unit × BotWorld :=
  match subject with
  | none => (Except.error PyErr.keyError, w)
  | some _ =>
    let w' := { w with currentEvent := some e, agentRuns := w.agentRuns + 1 }
    if agentOk then (Except.ok (), w') else (Except.error PyErr.agentError, w')

/-- Method `GitHubBotRouter.handle_event`: validate, then dispatch on
`event["event_name"]`.  The fallback arm is unreachable for validated
events (validation admits exactly the three table keys). -/
def handle_event (agentOk : Bool) (w : BotWorld) (e : Event) :
    Except PyErr Unit × BotWorld :=
  match validate_event e with
  | Except.error err => (Except.error err, w)
  | Except.ok _ =>
    match e.event_name with
    | some "issues" => handleSubject agentOk w e e.issue
    | some "pull_request" => handleSubject agentOk w e e.pull_request
    | some "discussion" => handleSubject agentOk w e e.discussion
    | _ => (Except.error PyErr.keyError, w)

/-- Method `GitHubWebhookHandler.do_POST`.  Returns the HTTP status sent
(`none` when the handler raises before `send_response`: a missing or
non-integer `Content-Length` makes `int(self.headers["Content-Length"])`
raise, and a signature whose digest part has non-ASCII characters makes
`hmac.compare_digest` raise `TypeError` — both outside the `try` block)
together with the resulting world.  `parse` is `json.loads` on the body
the handler read. -/
def do_POST (secret : List Nat) (parse : List Nat → JsonParse) (agentOk : Bool)
    (w : BotWorld) (req : Request) : Option Nat × BotWorld :=
  match req.contentLength with
  | none => (none, w)
  | some n =>
    let payload := req.body.take n
    let signature := req.signature256.getD []
    match verify_signature secret payload signature with
    | Except.error _ => (none, w)
    | Except.ok false => (some 401, w)
    | Except.ok true =>
      match parse payload with
      | JsonParse.malformed => (some 400, w)
      | JsonParse.nonObject =>
        -- the `TypeError` from `event["event_name"] = event_type` fires only
        -- after the event-type header check, which raises `ValueError` first
        let event_type := req.eventType.getD ""
        if event_type = "" then (some 400, w)
        else (some 500, w)
      | JsonParse.obj e =>
        let event_type := req.eventType.getD ""
        if event_type = "" then (some 400, w)
        else
          let e' := { e with event_name := some event_type }
          match handle_event agentOk w e' with
          | (Except.ok _, w') => (some 200, w')
          | (Except.error PyErr.unsupportedEventError, w') => (some 422, w')
          | (Except.error PyErr.jsonDecodeError, w') => (some 400, w')
          | (Except.error PyErr.valueError, w') => (some 400, w')
          | (Except.error _, w') => (some 500, w')

/-- Spec-side definition for comparison with `get_hourly_cost`: "sum of
journal entries within the trailing window" (spec §6.4 / testable
properties), written from the spec's words. -/
def specWindowSum (db : GitHubState) (now : Int) (hours : Nat) : ℚ :=
  ((db.windowRows now hours).map (·.cost)).sum

/-- Concrete store used to witness the retention cleanup: one 40-day-old
event with a journal entry and a cached state, one 10-day-old event with a
journal entry. -/
def cleanupDemoDb : GitHubState :=
  { events :=
      [{ id := "issues-1", type_ := "issues", action := "opened", created_at := 0 },
       { id := "issues-2", type_ := "issues", action := "opened", created_at := 864000 }],
    model_states := [{ event_id := "issues-1", state := {}, updated_at := 0 }],
    cost_tracking :=
      [{ event_id := "issues-1", timestamp := 0, cost := 2, tokens := 10 },
       { event_id := "issues-2", timestamp := 864000, cost := 3, tokens := 20 }] }

/-- The store `cleanupDemoDb` after a committed 30-day cleanup at
`now = 3456000`. -/
def cleanupDemoDbAfter : GitHubState :=
  { events :=
      [{ id := "issues-2", type_ := "issues", action := "opened", created_at := 864000 }],
    model_states := [],
    cost_tracking :=
      [{ event_id := "issues-2", timestamp := 864000, cost := 3, tokens := 20 }] }

/-! ## Theorems -/

set_option maxRecDepth 100000 in
/-- The embedded SHA-256 agrees with the FIPS 180-4 test vectors for the
empty message and for `"abc"`. -/
theorem sha256_test_vectors :
    bytesToHex (sha256 []) =
      "e3b0c44298fc1c149afbf4c8996fb92427ae41e4649b934ca495991b7852b855".toList ∧
    bytesToHex (sha256 (strBytes "abc")) =
      "ba7816bf8f01cfea414140de5dae2223b00361a396177a9cb410ff61f20015ad".toList := by
  constructor <;> decide

set_option maxRecDepth 100000 in
/-- The embedded HMAC-SHA256 agrees with RFC 4231 test case 2. -/
theorem hmacSha256_test_vector :
    hmacSha256Hex (strBytes "Jefe") (strBytes "what do ya want for nothing?") =
      "5bdcc146bf60754e6a042426089575c75a003f089d2739839dec58b964ec3843".toList := by
  decide

/-- C9: `track_processing` called with an empty list of event ids raises
`ZeroDivisionError` from the unguarded division of total cost and tokens
by the event count.  The error carries no updated optimizer or store, so
no store write and no rate-limit decrement has happened: the operation is
only safe when the id list is non-empty. -/
theorem c9_track_processing_empty_raises (o : GitHubCostOptimizer)
    (db : GitHubState) (now : Int) (cost : ℚ) (tokens : Int) :
    o.track_processing db now [] cost tokens =
      Except.error PyErr.zeroDivisionError := by
  simp [GitHubCostOptimizer.track_processing]

/-- C3: evaluation of `add_to_batch` at the failing input.  With
`max_batch_size = 2`, the first call returns `false` as the claim states,
but the second call — the one that makes the batch reach `max_batch_size`
— also returns `false`, contradicting the claim, the spec and the repo's
own test (`tests/github/test_cost.py::test_batch_processing` asserts the
second call returns true).  `true` is only returned by a later call, which
silently drops its event: the batch and the admitted set are left
untouched.  `get_batch` does return the two admitted events in admission
order and leaves the batch empty. -/
theorem c3_add_to_batch_code_bug :
    let e0 : Event := { event_name := some "issues", issue := some ⟨0, "T0"⟩ }
    let e1 : Event := { event_name := some "issues", issue := some ⟨1, "T1"⟩ }
    let e2 : Event := { event_name := some "issues", issue := some ⟨2, "T2"⟩ }
    let o : GitHubCostOptimizer := { max_batch_size := 2 }
    let r0 := o.add_to_batch e0
    let r1 := r0.2.add_to_batch e1
    let r2 := r1.2.add_to_batch e2
    r0.1 = false ∧
    r1.1 = false ∧
    r1.2.current_batch = [e0, e1] ∧
    r2.1 = true ∧
    r2.2 = r1.2 ∧
    r1.2.get_batch.1 = [e0, e1] ∧
    r1.2.get_batch.2.current_batch = [] := by
  decide

/-- C2 (counterexample): `should_process_event` does not return true "at
most once" per identity — it does not record the identity at all, so two
consecutive calls on a fresh optimizer both return true; and the admitted
set is process-local, so after one instance admits the identity into a
batch and tracks its processing through the shared store, a second fresh
in-memory instance backed by that same store still returns true for the
same identity. -/
theorem c2_counterexample :
    let e : Event := { event_name := some "issues", issue := some ⟨123, "T"⟩ }
    let o : GitHubCostOptimizer := {}
    let db : GitHubState := ({} : GitHubState).save_event "issues-123" "issues" "opened" 0
    -- two consecutive calls, no admission in between: both true
    (o.should_process_event db 0 e).1 = true ∧
    ((o.should_process_event db 0 e).2.should_process_event db 0 e).1 = true ∧
    -- instance 1 admits and tracks the identity through the store …
    ((((o.add_to_batch e).2.track_processing db 0 ["issues-123"] 1 500).toOption.map
      (fun p =>
        -- … yet a second fresh instance backed by that store says true,
        -- while the store does carry the processed identity persistently
        (({} : GitHubCostOptimizer).should_process_event p.2 0 e).1 &&
        p.2.cost_tracking.any (fun r => r.event_id = "issues-123"))).getD false) = true := by
  refine ⟨by decide, by decide, ?_⟩
  norm_num [GitHubCostOptimizer.track_processing, GitHubCostOptimizer.add_to_batch,
    GitHubCostOptimizer.should_process_event, GitHubCostOptimizer.get_event_id,
    GitHubCostOptimizer.check_rate_limit, GitHubState.is_cost_efficient,
    GitHubState.get_hourly_cost, GitHubState.windowRows, GitHubState.mark_event_processed,
    GitHubState.save_event, Except.toOption]

/-- C2 (amended): a dedup hit — an identity already in the process-local
admitted set — makes `should_process_event` return false immediately, with
the optimizer unchanged and without consulting the store (the result is
the same for every store); an identity admitted into a non-full batch by
`add_to_batch` is refused by every later `should_process_event` call of
the same in-memory instance; but the admitted set is process-local and not
derived from the store, so a fresh instance backed by any cost-efficient
store returns true for any identity regardless of the store's persisted
processed state. -/
theorem c2_should_process_dedup :
    (∀ (o : GitHubCostOptimizer) (db : GitHubState) (now : Int) (e : Event),
      o.processed_events.contains (GitHubCostOptimizer.get_event_id e) = true →
      o.should_process_event db now e = (false, o)) ∧
    (∀ (o : GitHubCostOptimizer) (db : GitHubState) (now : Int) (e : Event),
      o.current_batch.length < o.max_batch_size →
      ((o.add_to_batch e).2.should_process_event db now e).1 = false) ∧
    (∀ (db : GitHubState) (now : Int) (e : Event),
      db.is_cost_efficient now = true →
      (({} : GitHubCostOptimizer).should_process_event db now e).1 = true) := by
  refine ⟨?_, ?_, ?_⟩
  · intro o db now e h
    have h' : GitHubCostOptimizer.get_event_id e ∈ o.processed_events := by
      simpa using h
    simp [GitHubCostOptimizer.should_process_event, h']
  · intro o db now e h
    by_cases hm : GitHubCostOptimizer.get_event_id e ∈ o.processed_events
    · have hb : (o.add_to_batch e).2.processed_events = o.processed_events := by
        simp [GitHubCostOptimizer.add_to_batch, if_pos h, hm]
      simp [GitHubCostOptimizer.should_process_event, hb, hm]
    · have hb : (o.add_to_batch e).2.processed_events
          = o.processed_events ++ [GitHubCostOptimizer.get_event_id e] := by
        simp [GitHubCostOptimizer.add_to_batch, if_pos h, hm]
      simp [GitHubCostOptimizer.should_process_event, hb]
  · intro db now e h
    simp [GitHubCostOptimizer.should_process_event, h,
      GitHubCostOptimizer.check_rate_limit]
    split <;> simp

/-- Witness for `c2_should_process_dedup`, at the `issues`/`#123` event:
a dedup hit refuses, an admitted identity is refused afterwards, and
a fresh instance over the empty (cost-efficient) store admits. -/
theorem c2_should_process_dedup_witness :
    (({ processed_events := ["issues-123"] } : GitHubCostOptimizer).should_process_event {} 0
        { event_name := some "issues", issue := some ⟨123, "T"⟩ } =
      (false, { processed_events := ["issues-123"] })) ∧
    ((({ max_batch_size := 2 } : GitHubCostOptimizer).add_to_batch
        { event_name := some "issues", issue := some ⟨123, "T"⟩ }).2.should_process_event {} 0
        { event_name := some "issues", issue := some ⟨123, "T"⟩ }).1 = false ∧
    (({} : GitHubCostOptimizer).should_process_event {} 0
        { event_name := some "issues", issue := some ⟨123, "T"⟩ }).1 = true :=
  ⟨c2_should_process_dedup.1 _ {} 0 _ (by decide),
   c2_should_process_dedup.2.1 _ {} 0 _ (by decide),
   c2_should_process_dedup.2.2 {} 0 _ (by decide)⟩

/-- C8: the rate-limit window.  The token counter is only ever decremented
by `track_processing`, by exactly the number of admitted event ids
(`should_process_event` leaves it unchanged or lazily resets it to the
full budget of 100, and batching never touches it); with the budget
exhausted to zero and the window not yet elapsed, `should_process_event`
refuses even a brand-new identity; and once current time passes
`last_reset + window`, the next check lazily resets the counter to the
full budget, advances `last_reset` to now, and the next request (a fresh
identity against a cost-efficient store) is admitted. -/
theorem c8_rate_limit_window :
    (∀ (o : GitHubCostOptimizer) (db : GitHubState) (now : Int) (e : Event),
      ((o.should_process_event db now e).2.rate_limit_tokens = o.rate_limit_tokens ∧
       (o.should_process_event db now e).2.rate_limit_last_reset = o.rate_limit_last_reset) ∨
      ((o.should_process_event db now e).2.rate_limit_tokens = 100 ∧
       (o.should_process_event db now e).2.rate_limit_last_reset = now)) ∧
    (∀ (o : GitHubCostOptimizer) (e : Event),
      (o.add_to_batch e).2.rate_limit_tokens = o.rate_limit_tokens) ∧
    (∀ o : GitHubCostOptimizer, o.get_batch.2.rate_limit_tokens = o.rate_limit_tokens) ∧
    (∀ (o o' : GitHubCostOptimizer) (db db' : GitHubState) (now : Int)
       (ids : List String) (cost : ℚ) (tokens : Int),
      o.track_processing db now ids cost tokens = Except.ok (o', db') →
      o'.rate_limit_tokens = o.rate_limit_tokens - ids.length) ∧
    (∀ (o : GitHubCostOptimizer) (db : GitHubState) (now : Int) (e : Event),
      o.rate_limit_tokens = 0 →
      now - o.rate_limit_last_reset < o.rate_limit_window →
      (o.should_process_event db now e).1 = false) ∧
    (∀ (o : GitHubCostOptimizer) (now : Int),
      o.rate_limit_window ≤ now - o.rate_limit_last_reset →
      o.check_rate_limit now =
        (true, { o with rate_limit_tokens := 100, rate_limit_last_reset := now })) ∧
    (∀ (o : GitHubCostOptimizer) (db : GitHubState) (now : Int) (e : Event),
      o.rate_limit_window ≤ now - o.rate_limit_last_reset →
      o.processed_events.contains (GitHubCostOptimizer.get_event_id e) = false →
      db.is_cost_efficient now = true →
      o.should_process_event db now e =
        (true, { o with rate_limit_tokens := 100, rate_limit_last_reset := now })) := by
  refine ⟨?_, ?_, ?_, ?_, ?_, ?_, ?_⟩
  · intro o db now e
    simp only [GitHubCostOptimizer.should_process_event]
    split
    · exact Or.inl ⟨rfl, rfl⟩
    · split
      · exact Or.inl ⟨rfl, rfl⟩
      · simp only [GitHubCostOptimizer.check_rate_limit]
        split
        · exact Or.inr ⟨rfl, rfl⟩
        · exact Or.inl ⟨rfl, rfl⟩
  · intro o e
    simp only [GitHubCostOptimizer.add_to_batch]
    split <;> rfl
  · intro o
    rfl
  · intro o o' db db' now ids cost tokens h
    by_cases hn : ids.length = 0
    · simp [GitHubCostOptimizer.track_processing, hn] at h
    · simp only [GitHubCostOptimizer.track_processing] at h
      rw [if_neg hn] at h
      simp only [Except.ok.injEq, Prod.mk.injEq] at h
      rw [← h.1]
  · intro o db now e h0 hw
    simp only [GitHubCostOptimizer.should_process_event]
    split
    · rfl
    · split
      · rfl
      · simp [GitHubCostOptimizer.check_rate_limit, if_neg (by omega :
          ¬ o.rate_limit_window ≤ now - o.rate_limit_last_reset), h0]
  · intro o now h
    simp [GitHubCostOptimizer.check_rate_limit, if_pos h]
  · intro o db now e hw hc heff
    have hc' : GitHubCostOptimizer.get_event_id e ∉ o.processed_events := by
      simpa using hc
    simp [GitHubCostOptimizer.should_process_event, hc', heff,
      GitHubCostOptimizer.check_rate_limit, if_pos hw]

/-- Witness for `c8_rate_limit_window`: with the budget poked to zero the
`issues`/`#7` event is refused; at `now = 3600` (one full window after the
last reset) the check resets to the full budget and the same event is
admitted; and tracking one event id decrements the fresh budget to 99. -/
theorem c8_rate_limit_window_witness :
    ((({ rate_limit_tokens := 0 } : GitHubCostOptimizer).should_process_event {} 0
        { event_name := some "issues", issue := some ⟨7, "T"⟩ }).1 = false) ∧
    (({ rate_limit_tokens := 0 } : GitHubCostOptimizer).check_rate_limit 3600 =
      (true, { rate_limit_tokens := 100, rate_limit_last_reset := 3600 })) ∧
    (({ rate_limit_tokens := 0 } : GitHubCostOptimizer).should_process_event {} 3600
        { event_name := some "issues", issue := some ⟨7, "T"⟩ } =
      (true, { rate_limit_tokens := 100, rate_limit_last_reset := 3600 })) ∧
    (({ rate_limit_tokens := 99 } : GitHubCostOptimizer).rate_limit_tokens =
      ({} : GitHubCostOptimizer).rate_limit_tokens - ((["a"] : List String).length : Int)) := by
  refine ⟨c8_rate_limit_window.2.2.2.2.1 _ {} 0 _ rfl (by decide),
          c8_rate_limit_window.2.2.2.2.2.1 _ 3600 (by decide),
          c8_rate_limit_window.2.2.2.2.2.2 _ {} 3600 _ (by decide) (by decide) (by decide),
          c8_rate_limit_window.2.2.2.1 {}
            { rate_limit_tokens := 99 }
            (({} : GitHubState).save_event "a" "issues" "opened" 0)
            { events :=
                [{ id := "a", type_ := "issues", action := "opened", created_at := 0,
                   processed_at := some 0, cost := some 1, tokens := some 2 }],
              cost_tracking := [{ event_id := "a", timestamp := 0, cost := 1, tokens := 2 }] }
            0 ["a"] 1 2 ?_⟩
  norm_num [GitHubCostOptimizer.track_processing, GitHubState.mark_event_processed,
    GitHubState.save_event, Int.fdiv]

/-- C4 (counterexample): with a single journal entry of cost 5 inside the
window, `get_hourly_cost` over a 2-hour trailing window returns 5/2, not
the in-window sum 5: the SQL query divides `SUM(cost)` by the window
length. -/
theorem c4_counterexample :
    (({ cost_tracking := [{ event_id := "issues-1", timestamp := 0, cost := 5, tokens := 100 }] } :
        GitHubState).get_hourly_cost 0 2 ≠
      specWindowSum { cost_tracking :=
        [{ event_id := "issues-1", timestamp := 0, cost := 5, tokens := 100 }] } 0 2) := by
  norm_num [GitHubState.get_hourly_cost, GitHubState.windowRows, specWindowSum]

/-- C4 (amended): `get_hourly_cost(window)` returns the sum of the
cost-tracking journal entries whose timestamp lies within the trailing
window **divided by the window length in hours** (an average hourly rate,
as its docstring says), and zero when there are none; with the default
1-hour window, entries of 5.0 and 3.0 inside the window yield exactly 8.0,
and entries older than the window are excluded. -/
theorem c4_get_hourly_cost :
    (∀ (db : GitHubState) (now : Int) (hours : Nat), 0 < hours →
      db.get_hourly_cost now hours = specWindowSum db now hours / (hours : ℚ)) ∧
    (∀ (db : GitHubState) (now : Int) (hours : Nat),
      db.windowRows now hours = [] → db.get_hourly_cost now hours = 0) ∧
    (({ cost_tracking :=
        [{ event_id := "a", timestamp := -7200, cost := 7, tokens := 1 },
         { event_id := "b", timestamp := -100, cost := 5, tokens := 1 },
         { event_id := "c", timestamp := -50, cost := 3, tokens := 1 }] } :
      GitHubState).get_hourly_cost 0 1 = 8) := by
  refine ⟨?_, ?_, ?_⟩
  · intro db now hours h
    simp only [GitHubState.get_hourly_cost, specWindowSum]
    by_cases he : (db.windowRows now hours).isEmpty
    · have hrows : db.windowRows now hours = [] := by
        simpa [List.isEmpty_iff] using he
      simp [he, hrows]
    · simp [he, Nat.pos_iff_ne_zero.mp h]
  · intro db now hours h
    simp [GitHubState.get_hourly_cost, h]
  · norm_num [GitHubState.get_hourly_cost, GitHubState.windowRows]

/-- Witness for `c4_get_hourly_cost`: at a 2-hour window with one in-window
entry of 5 the result is the sum divided by 2, and over an empty journal it
is zero. -/
theorem c4_get_hourly_cost_witness :
    (({ cost_tracking := [{ event_id := "issues-1", timestamp := 0, cost := 5, tokens := 100 }] } :
        GitHubState).get_hourly_cost 0 2 =
      specWindowSum { cost_tracking :=
        [{ event_id := "issues-1", timestamp := 0, cost := 5, tokens := 100 }] } 0 2 / (2 : ℚ)) ∧
    (({} : GitHubState).get_hourly_cost 5 1 = 0) :=
  ⟨c4_get_hourly_cost.1 _ 0 2 (by decide),
   c4_get_hourly_cost.2.1 {} 5 1 rfl⟩

/-- Lookup by `find?` over a keyed replacement returns the replacement blob when the
key occurs. -/
theorem find_map_state (l : List ModelStateRow) (id : String) (st : StateBlob)
    (now : Int) (h : l.any (fun r => r.event_id = id) = true) :
    ((l.map (fun r => if r.event_id = id then { r with state := st, updated_at := now }
        else r)).find? (fun r => r.event_id = id)).map (·.state) = some st := by
  induction l with
  | nil => simp at h
  | cons a t ih =>
    by_cases ha : a.event_id = id
    · simp [List.find?_cons, ha]
    · simp only [List.any_cons, decide_eq_true_eq, ha, Bool.false_or, false_or] at h
      simp only [List.map_cons, if_neg ha, List.find?_cons, decide_eq_false ha,
        Bool.false_eq_true]
      exact ih h

/-- Lookup by `find?` over an appended fresh row returns that row when no earlier row
has the key. -/
theorem find_append_state (l : List ModelStateRow) (id : String)
    (row : ModelStateRow) (h : l.any (fun r => r.event_id = id) = false)
    (hrow : row.event_id = id) :
    ((l ++ [row]).find? (fun r => r.event_id = id)).map (·.state) =
      some row.state := by
  induction l with
  | nil => simp [List.find?_cons, hrow]
  | cons a t ih =>
    simp only [List.any_cons, Bool.or_eq_false_iff, decide_eq_false_iff_not] at h
    simp only [List.cons_append, List.find?_cons, decide_eq_false h.1,
      Bool.false_eq_true]
    exact ih (by simp [h.2])

/-- Point lookup after an upsert returns the just-written blob. -/
theorem get_model_state_save (db : GitHubState) (now : Int) (event_id : String)
    (st : StateBlob) :
    (db.save_model_state now event_id st).get_model_state event_id = some st := by
  unfold GitHubState.save_model_state GitHubState.get_model_state
  by_cases h : db.model_states.any (fun r => r.event_id = event_id) = true
  · simp only [if_pos h]
    exact find_map_state _ _ _ _ h
  · simp only [if_neg h]
    exact find_append_state _ _ _ (by simpa using h) rfl

/-- C10 (counterexample): a blob stored through `save_model_state` as the
empty dict lacks a parseable `_updated_at`, yet `get_cached_state` reports
the entry absent (`None`) instead of raising `ValueError`: the falsy-dict
guard `if not state` fires before the TTL parse. -/
theorem c10_counterexample :
    (({} : GitHubState).save_model_state 0 "evt-1" {}).get_model_state "evt-1" =
      some {} ∧
    ({} : GitHubCostOptimizer).get_cached_state
      (({} : GitHubState).save_model_state 0 "evt-1" {}) 100 "evt-1" =
      Except.ok none := by
  constructor <;> rfl

/-- C10 (amended): `get_cached_state` raises `ValueError` instead of
reporting the entry absent whenever the stored blob is a **non-empty**
dict lacking a parseable `_updated_at` field (the empty dict is falsy and
is reported absent before the TTL parse); such blobs can be written
through the Store's `save_model_state` directly; only blobs written
through `cache_state` — which always injects a current `_updated_at`
stamp before writing — satisfy the unstated precondition, and they never
raise. -/
theorem c10_get_cached_state :
    (∀ (o : GitHubCostOptimizer) (db : GitHubState) (now : Int) (id : String)
       (st : StateBlob),
      db.get_model_state id = some st → st.isEmptyDict = false →
      st.updatedAt = none →
      o.get_cached_state db now id = Except.error PyErr.valueError) ∧
    (∀ (o : GitHubCostOptimizer) (db : GitHubState) (now : Int) (id : String)
       (st : StateBlob),
      (o.cache_state db now id st).get_model_state id =
        some { st with updatedAt := some now }) ∧
    (∀ (o : GitHubCostOptimizer) (db : GitHubState) (now now' : Int) (id : String)
       (st : StateBlob),
      o.get_cached_state (o.cache_state db now id st) now' id ≠
        Except.error PyErr.valueError) := by
  refine ⟨?_, ?_, ?_⟩
  · intro o db now id st h1 h2 h3
    simp [GitHubCostOptimizer.get_cached_state, h1, h2, h3,
      GitHubCostOptimizer.fromisoformat]
  · intro o db now id st
    exact get_model_state_save db now id _
  · intro o db now now' id st
    have hg : (o.cache_state db now id st).get_model_state id =
        some { st with updatedAt := some now } :=
      get_model_state_save db now id _
    simp only [GitHubCostOptimizer.get_cached_state, hg, StateBlob.isEmptyDict,
      GitHubCostOptimizer.fromisoformat]
    split
    · simp_all
    · split <;> simp

/-- Witness for `c10_get_cached_state`: a non-empty stamp-less blob stored
directly raises `ValueError`, while a blob cached through `cache_state`
is stamped and never raises. -/
theorem c10_get_cached_state_witness :
    ({} : GitHubCostOptimizer).get_cached_state
      (({} : GitHubState).save_model_state 0 "e"
        { updatedAt := none, data := [("k", "v")] }) 100 "e" =
      Except.error PyErr.valueError ∧
    ((({} : GitHubCostOptimizer).cache_state {} 0 "e"
        { data := [("k", "v")] }).get_model_state "e" =
      some { updatedAt := some 0, data := [("k", "v")] }) ∧
    ({} : GitHubCostOptimizer).get_cached_state
      (({} : GitHubCostOptimizer).cache_state {} 0 "e" { data := [("k", "v")] })
      100 "e" ≠ Except.error PyErr.valueError :=
  ⟨c10_get_cached_state.1 {} _ 100 "e" { updatedAt := none, data := [("k", "v")] }
     (by decide) (by decide) rfl,
   c10_get_cached_state.2.1 {} {} 0 "e" _,
   c10_get_cached_state.2.2 {} {} 0 100 "e" _⟩

/-- C5: `cleanup_old_events`.  When the transaction commits (`Except.ok`),
the surviving event rows are exactly those at or after the cutoff (each
untouched), the returned count equals exactly the number of removed event
rows, and every removed event's journal entries and cached-state rows are
gone; the dependency-ordered deletes run in one transaction, and on any
failure (the foreign-key check on the final event delete) the whole
transaction rolls back, leaving the store unchanged. -/
theorem c5_cleanup_old_events :
    (∀ (db : GitHubState) (now : Int) (days : Nat) (n : Nat) (db' : GitHubState),
      db.cleanup_old_events now days = (Except.ok n, db') →
      (db'.events =
        db.events.filter (fun e => ¬ e.created_at < now - days * 86400)) ∧
      n = (db.events.filter (fun e => e.created_at < now - days * 86400)).length ∧
      (∀ ev ∈ db.events, ev.created_at < now - days * 86400 →
        ev ∉ db'.events ∧
        (∀ r ∈ db'.cost_tracking, r.event_id ≠ ev.id) ∧
        (∀ m ∈ db'.model_states, m.event_id ≠ ev.id)) ∧
      (∀ ev ∈ db.events, ¬ ev.created_at < now - days * 86400 → ev ∈ db'.events)) ∧
    (∀ (db : GitHubState) (now : Int) (days : Nat) (err : PyErr) (db' : GitHubState),
      db.cleanup_old_events now days = (Except.error err, db') → db' = db) := by
  constructor
  · intro db now days n db' h
    unfold GitHubState.cleanup_old_events at h
    by_cases hfk : ((db.cost_tracking.filter
        (fun r => ¬ r.timestamp < now - days * 86400)).any
        (fun r => ((db.events.filter
          (fun e => e.created_at < now - days * 86400)).map (·.id)).contains
            r.event_id)) = true
    · rw [if_pos hfk] at h
      simp at h
    · rw [if_neg hfk] at h
      simp only [Prod.mk.injEq, Except.ok.injEq] at h
      obtain ⟨hn, hdb⟩ := h
      subst hdb
      refine ⟨rfl, by rw [← hn, List.length_map], ?_, ?_⟩
      · intro ev hev hold
        dsimp only
        have hidmem : ev.id ∈ (db.events.filter
            (fun e => e.created_at < now - days * 86400)).map (·.id) :=
          List.mem_map.mpr ⟨ev, List.mem_filter.mpr ⟨hev, by simpa using hold⟩, rfl⟩
        have hfk' : ∀ r ∈ db.cost_tracking.filter
            (fun r => ¬ r.timestamp < now - days * 86400),
            ((db.events.filter
              (fun e => e.created_at < now - days * 86400)).map (·.id)).contains
              r.event_id = false := by
          intro r hr
          by_contra hc
          have hc' : ((db.events.filter
              (fun e => e.created_at < now - days * 86400)).map (·.id)).contains
              r.event_id = true := by
            cases hb : ((db.events.filter
                (fun e => e.created_at < now - days * 86400)).map (·.id)).contains
                r.event_id
            · exact absurd hb hc
            · rfl
          exact hfk (List.any_eq_true.mpr ⟨r, hr, hc'⟩)
        refine ⟨?_, ?_, ?_⟩
        · intro hmem
          have := (List.mem_filter.mp hmem).2
          simp [hold] at this
        · intro r hr heq
          have := hfk' r hr
          rw [heq] at this
          simp [hidmem] at this
        · intro m hm heq
          have := (List.mem_filter.mp hm).2
          rw [heq] at this
          simp [hidmem] at this
      · intro ev hev hkeep
        exact List.mem_filter.mpr ⟨hev, by simpa using hkeep⟩
  · intro db now days err db' h
    unfold GitHubState.cleanup_old_events at h
    by_cases hfk : ((db.cost_tracking.filter
        (fun r => ¬ r.timestamp < now - days * 86400)).any
        (fun r => ((db.events.filter
          (fun e => e.created_at < now - days * 86400)).map (·.id)).contains
            r.event_id)) = true
    · rw [if_pos hfk] at h
      exact ((Prod.mk.injEq _ _ _ _).mp h).2.symm
    · rw [if_neg hfk] at h
      simp at h


/-- Witness for `c5_cleanup_old_events`: on `cleanupDemoDb` at a 30-day
retention the cleanup commits, returns count 1, and the surviving event
rows are exactly those at or after the cutoff. -/
theorem c5_cleanup_old_events_witness :
    cleanupDemoDb.cleanup_old_events 3456000 30 = (Except.ok 1, cleanupDemoDbAfter) ∧
    cleanupDemoDbAfter.events =
      cleanupDemoDb.events.filter (fun e => ¬ e.created_at < 3456000 - 30 * 86400) :=
  ⟨rfl, (c5_cleanup_old_events.1 cleanupDemoDb 3456000 30 1 cleanupDemoDbAfter rfl).1⟩

/-- The scheme tag, as an explicit character list. -/
theorem schemeTag_eq : schemeTag = ['s', 'h', 'a', '2', '5', '6', '='] := rfl

/-- Hex digits are never `'s'`. -/
theorem hexChar_ne_s : ∀ k, k < 16 → hexChar k ≠ 's' := by decide

/-- No character of a hex digest is `'s'`. -/
theorem hex_no_s (bs : List Nat) : ∀ c ∈ bytesToHex bs, c ≠ 's' := by
  intro c hc
  simp only [bytesToHex, List.mem_flatMap] at hc
  obtain ⟨b, _, hb⟩ := hc
  have h16a : b / 16 % 16 < 16 := Nat.mod_lt _ (by norm_num)
  have h16b : b % 16 < 16 := Nat.mod_lt _ (by norm_num)
  simp only [List.mem_cons, List.mem_singleton, List.not_mem_nil, or_false] at hb
  rcases hb with h | h
  · exact h ▸ hexChar_ne_s _ h16a
  · exact h ▸ hexChar_ne_s _ h16b

/-- Python `str.replace` is the identity on strings without the pattern's leading
character. -/
theorem pyReplaceAux_no_s (fuel : Nat) (d : List Char)
    (h : ∀ c ∈ d, c ≠ 's') : pyReplaceAux schemeTag [] fuel d = d := by
  induction fuel generalizing d with
  | zero => cases d <;> rfl
  | succ n ih =>
    cases d with
    | nil => rfl
    | cons c rest =>
      have hc : c ≠ 's' := h c (List.mem_cons_self _ _)
      have hpre : schemeTag.isPrefixOf (c :: rest) = false := by
        rw [schemeTag_eq]
        simp [List.isPrefixOf, Ne.symm hc]
      simp only [pyReplaceAux, hpre, Bool.false_eq_true, false_and, if_false,
        List.cons.injEq]
      exact ⟨trivial, ih rest (fun x hx => h x (List.mem_cons_of_mem _ hx))⟩

/-- Stripping the scheme tag off `tag ++ digest` recovers the digest, for
any digest free of the tag's leading character. -/
theorem pyReplace_tag_append (d : List Char) (h : ∀ c ∈ d, c ≠ 's') :
    pyReplace (schemeTag ++ d) schemeTag [] = d := by
  have hpre : schemeTag.isPrefixOf (schemeTag ++ d) = true := by
    rw [List.isPrefixOf_iff_prefix]
    exact List.prefix_append _ _
  show pyReplaceAux schemeTag [] (schemeTag ++ d).length (schemeTag ++ d) = d
  rw [schemeTag_eq] at hpre ⊢
  simp only [List.cons_append, List.nil_append, List.length_cons]
  rw [pyReplaceAux]
  have hpre2 : schemeTag.isPrefixOf ('s' :: 'h' :: 'a' :: '2' :: '5' :: '6' :: '=' :: d) =
      true := by
    rw [schemeTag_eq]
    simpa using hpre
  rw [if_pos ⟨hpre2, by simp⟩]
  have hdrop : List.drop ((['s', 'h', 'a', '2', '5', '6', '='] : List Char).length - 1)
      ('h' :: 'a' :: '2' :: '5' :: '6' :: '=' :: d) = d := rfl
  rw [hdrop, List.nil_append]
  exact pyReplaceAux_no_s _ d h

/-- Hex digits are ASCII. -/
theorem hexChar_ascii : ∀ k, k < 16 → (hexChar k).toNat < 128 := by decide

/-- Every character of a hex digest is ASCII. -/
theorem hex_ascii (bs : List Nat) :
    (bytesToHex bs).all (fun c => c.toNat < 128) = true := by
  rw [List.all_eq_true]
  intro c hc
  simp only [decide_eq_true_eq]
  simp only [bytesToHex, List.mem_flatMap] at hc
  obtain ⟨b, _, hb⟩ := hc
  have h16a : b / 16 % 16 < 16 := Nat.mod_lt _ (by norm_num)
  have h16b : b % 16 < 16 := Nat.mod_lt _ (by norm_num)
  simp only [List.mem_cons, List.mem_singleton, List.not_mem_nil, or_false] at hb
  rcases hb with h | h
  · exact h ▸ hexChar_ascii _ h16a
  · exact h ▸ hexChar_ascii _ h16b

set_option maxRecDepth 100000 in
/-- C6 (counterexample): a signature header whose digest part holds a
non-ASCII character (here `\xe9`, as iso-8859-1-decoded by
`http.server`) carries the scheme tag and mismatches, yet is not rejected
with 401: `hmac.compare_digest` raises `TypeError`, uncaught outside the
`try` block, and no response is sent at all. -/
theorem c6_counterexample :
    verify_signature [107] [97] (schemeTag ++ [Char.ofNat 233]) =
      Except.error PyErr.typeError ∧
    do_POST [107] (fun _ => JsonParse.malformed) true {}
      { contentLength := some 1, body := [97],
        signature256 := some (schemeTag ++ [Char.ofNat 233]),
        eventType := some "issues" } = (none, {}) ∧
    (do_POST [107] (fun _ => JsonParse.malformed) true {}
      { contentLength := some 1, body := [97],
        signature256 := some (schemeTag ++ [Char.ofNat 233]),
        eventType := some "issues" }).1 ≠ some 401 := by
  refine ⟨by decide, by decide, by decide⟩

/-- C6 (amended): signature verification.  For every payload and secret,
the signature `sha256=` + hex HMAC-SHA256 of the raw body under the shared
secret verifies; verification succeeds exactly when the scheme tag is
present and the transmitted digest part equals the expected digest, so any
mutation of the payload or of the secret that changes the digest —
exhibited on concrete single-byte mutations by the witness — fails
verification; a signature missing the scheme prefix always fails; a
failing verification or a missing signature header is rejected with 401
with the world untouched; but a tagged signature whose digest part holds a
non-ASCII character makes `hmac.compare_digest` raise `TypeError` outside
the `try` block, so no response is sent. -/
theorem c6_signature_verification :
    (∀ (secret payload : List Nat),
      verify_signature secret payload
        (schemeTag ++ hmacSha256Hex secret payload) = Except.ok true) ∧
    (∀ (secret payload : List Nat) (sig : List Char),
      verify_signature secret payload sig = Except.ok true ↔
        (schemeTag.isPrefixOf sig = true ∧
         pyReplace sig schemeTag [] = hmacSha256Hex secret payload)) ∧
    (∀ (secret payload payload' : List Nat),
      hmacSha256Hex secret payload' ≠ hmacSha256Hex secret payload →
      verify_signature secret payload'
        (schemeTag ++ hmacSha256Hex secret payload) = Except.ok false) ∧
    (∀ (secret secret' payload : List Nat),
      hmacSha256Hex secret' payload ≠ hmacSha256Hex secret payload →
      verify_signature secret' payload
        (schemeTag ++ hmacSha256Hex secret payload) = Except.ok false) ∧
    (∀ (secret payload : List Nat) (sig : List Char),
      schemeTag.isPrefixOf sig = false →
      verify_signature secret payload sig = Except.ok false) ∧
    (∀ (secret payload : List Nat) (sig : List Char),
      schemeTag.isPrefixOf sig = true →
      (pyReplace sig schemeTag []).all (fun c => c.toNat < 128) = false →
      verify_signature secret payload sig = Except.error PyErr.typeError) ∧
    (∀ (secret : List Nat) (parse : List Nat → JsonParse) (agentOk : Bool)
       (w : BotWorld) (req : Request) (n : Nat),
      req.contentLength = some n →
      verify_signature secret (req.body.take n) (req.signature256.getD []) =
        Except.ok false →
      do_POST secret parse agentOk w req = (some 401, w)) ∧
    (∀ (secret : List Nat) (parse : List Nat → JsonParse) (agentOk : Bool)
       (w : BotWorld) (req : Request) (n : Nat),
      req.contentLength = some n → req.signature256 = none →
      do_POST secret parse agentOk w req = (some 401, w)) ∧
    (∀ (secret : List Nat) (parse : List Nat → JsonParse) (agentOk : Bool)
       (w : BotWorld) (req : Request) (n : Nat) (err : PyErr),
      req.contentLength = some n →
      verify_signature secret (req.body.take n) (req.signature256.getD []) =
        Except.error err →
      do_POST secret parse agentOk w req = (none, w)) := by
  have hpre : ∀ d : List Char, schemeTag.isPrefixOf (schemeTag ++ d) = true := by
    intro d
    rw [List.isPrefixOf_iff_prefix]
    exact List.prefix_append _ _
  have hstrip : ∀ s p : List Nat,
      pyReplace (schemeTag ++ hmacSha256Hex s p) schemeTag [] = hmacSha256Hex s p :=
    fun s p => pyReplace_tag_append _ (hex_no_s (hmacSha256 s p))
  have hasc : ∀ s p : List Nat,
      (hmacSha256Hex s p).all (fun c => c.toNat < 128) = true :=
    fun s p => hex_ascii (hmacSha256 s p)
  refine ⟨?_, ?_, ?_, ?_, ?_, ?_, ?_, ?_, ?_⟩
  · intro secret payload
    simp [verify_signature, hpre, hstrip, compare_digest, hasc]
  · intro secret payload sig
    by_cases hp : schemeTag.isPrefixOf sig = true
    · by_cases ha : (pyReplace sig schemeTag []).all (fun c => c.toNat < 128) = true
      · simp [verify_signature, hp, compare_digest, hasc, ha, eq_comm]
      · simp only [verify_signature, hp, compare_digest, hasc, ha]
        constructor
        · intro h
          simp at h
        · rintro ⟨-, he⟩
          rw [he, hasc] at ha
          exact absurd rfl ha
    · simp [verify_signature, hp]
  · intro secret payload payload' hne
    simp [verify_signature, hpre, hstrip, compare_digest, hasc, hne]
  · intro secret secret' payload hne
    simp [verify_signature, hpre, hstrip, compare_digest, hasc, hne]
  · intro secret payload sig h
    simp [verify_signature, h]
  · intro secret payload sig h ha
    simp [verify_signature, h, compare_digest, hasc, ha]
  · intro secret parse agentOk w req n hcl hv
    simp [do_POST, hcl, hv]
  · intro secret parse agentOk w req n hcl hs
    simp [do_POST, hcl, hs, verify_signature, schemeTag, List.isPrefixOf]
  · intro secret parse agentOk w req n err hcl hv
    simp [do_POST, hcl, hv]

set_option maxRecDepth 100000 in
/-- Witness for `c6_signature_verification`, with secret byte `0x6b` and
payload byte `0x61`: the correct signature verifies; mutating the single
payload byte to `0x62`, or the single secret byte to `0x6c`, fails; a
signature without the scheme prefix fails; `do_POST` answers 401 with the
world untouched when the signature header is wrong or missing; and with a
non-ASCII digest byte the handler raises and sends nothing. -/
theorem c6_signature_verification_witness :
    verify_signature [107] [97] (schemeTag ++ hmacSha256Hex [107] [97]) =
      Except.ok true ∧
    verify_signature [107] [98] (schemeTag ++ hmacSha256Hex [107] [97]) =
      Except.ok false ∧
    verify_signature [108] [97] (schemeTag ++ hmacSha256Hex [107] [97]) =
      Except.ok false ∧
    verify_signature [107] [97] "invalid".toList = Except.ok false ∧
    verify_signature [107] [97] (schemeTag ++ [Char.ofNat 233]) =
      Except.error PyErr.typeError ∧
    do_POST [107] (fun _ => JsonParse.malformed) true {}
      { contentLength := some 1, body := [97],
        signature256 := some "invalid".toList, eventType := some "issues" } =
      (some 401, {}) ∧
    do_POST [107] (fun _ => JsonParse.malformed) true {}
      { contentLength := some 1, body := [97],
        signature256 := none, eventType := some "issues" } =
      (some 401, {}) ∧
    do_POST [107] (fun _ => JsonParse.malformed) true {}
      { contentLength := some 1, body := [97],
        signature256 := some (schemeTag ++ [Char.ofNat 233]),
        eventType := some "issues" } =
      (none, {}) :=
  ⟨c6_signature_verification.1 [107] [97],
   c6_signature_verification.2.2.1 [107] [97] [98] (by decide),
   c6_signature_verification.2.2.2.1 [107] [108] [97] (by decide),
   c6_signature_verification.2.2.2.2.1 [107] [97] _ (by decide),
   c6_signature_verification.2.2.2.2.2.1 [107] [97] _ (by decide) (by decide),
   c6_signature_verification.2.2.2.2.2.2.1 [107] _ true {} _ 1 rfl (by decide),
   c6_signature_verification.2.2.2.2.2.2.2.1 [107] _ true {} _ 1 rfl rfl,
   c6_signature_verification.2.2.2.2.2.2.2.2 [107] _ true {} _ 1
     PyErr.typeError rfl (by decide)⟩

set_option maxRecDepth 100000 in
/-- C7 (counterexample): two POSTs escape all five statuses.  One lacks a
`Content-Length` header, so `int(self.headers["Content-Length"])` raises
outside the `try` block; the other carries a parseable `Content-Length`
but a signature whose digest part holds a non-ASCII character, so
`hmac.compare_digest` raises `TypeError`, also outside the `try` block.
Either way no response is sent, refuting exhaustiveness of the five
statuses over all POST requests. -/
theorem c7_counterexample :
    ((do_POST [107] (fun _ => JsonParse.malformed) true {}
      { contentLength := none, body := [97],
        signature256 := some (schemeTag ++ hmacSha256Hex [107] [97]),
        eventType := some "issues" }).1 ∉
      ([some 200, some 400, some 401, some 422, some 500] : List (Option Nat))) ∧
    ((do_POST [107] (fun _ => JsonParse.malformed) true {}
      { contentLength := some 1, body := [97],
        signature256 := some (schemeTag ++ [Char.ofNat 233]),
        eventType := some "issues" }).1 ∉
      ([some 200, some 400, some 401, some 422, some 500] : List (Option Nat))) := by
  refine ⟨by decide, by decide⟩

/-- C7 (amended): for every POST request that carries a parseable
`Content-Length` header and whose signature check returns (rather than
raises), the handler responds 401 on failing or missing signature (checked
first), 400 on malformed JSON, then 400 on a missing event-type header,
422 when the Router reports an unsupported event type or action, 500 on
any other internal failure (a non-object JSON body, a missing subject
object, the agent raising), and 200 on success — and these five outcomes
are exhaustive over such requests and mutually exclusive in that
precedence order (the response is a function of the request).  A request
without a parseable `Content-Length`, or one whose tagged signature holds
a non-ASCII digest character (`hmac.compare_digest` raises `TypeError`),
raises before any response is sent. -/
theorem c7_response_mapping (secret : List Nat) (parse : List Nat → JsonParse)
    (agentOk : Bool) (w : BotWorld) (req : Request) (n : Nat)
    (hcl : req.contentLength = some n) :
    (verify_signature secret (req.body.take n) (req.signature256.getD []) =
        Except.ok false →
      do_POST secret parse agentOk w req = (some 401, w)) ∧
    (verify_signature secret (req.body.take n) (req.signature256.getD []) =
        Except.ok true →
      parse (req.body.take n) = JsonParse.malformed →
      do_POST secret parse agentOk w req = (some 400, w)) ∧
    (verify_signature secret (req.body.take n) (req.signature256.getD []) =
        Except.ok true →
      ∀ e, parse (req.body.take n) = JsonParse.obj e →
      req.eventType.getD "" = "" →
      do_POST secret parse agentOk w req = (some 400, w)) ∧
    (verify_signature secret (req.body.take n) (req.signature256.getD []) =
        Except.ok true →
      ∀ e, parse (req.body.take n) = JsonParse.obj e →
      ∀ t, req.eventType = some t → t ≠ "" →
      validate_event { e with event_name := some t } =
        Except.error PyErr.unsupportedEventError →
      do_POST secret parse agentOk w req = (some 422, w)) ∧
    (verify_signature secret (req.body.take n) (req.signature256.getD []) =
        Except.ok true →
      parse (req.body.take n) = JsonParse.nonObject →
      req.eventType.getD "" ≠ "" →
      do_POST secret parse agentOk w req = (some 500, w)) ∧
    (verify_signature secret (req.body.take n) (req.signature256.getD []) =
        Except.ok true →
      ∀ e, parse (req.body.take n) = JsonParse.obj e →
      ∀ t, req.eventType = some t → t ≠ "" →
      ∀ w', handle_event agentOk w { e with event_name := some t } =
        (Except.ok (), w') →
      do_POST secret parse agentOk w req = (some 200, w')) ∧
    (∀ err, verify_signature secret (req.body.take n) (req.signature256.getD []) =
        Except.error err →
      do_POST secret parse agentOk w req = (none, w)) ∧
    (∀ b, verify_signature secret (req.body.take n) (req.signature256.getD []) =
        Except.ok b →
      ((do_POST secret parse agentOk w req).1 = some 200 ∨
       (do_POST secret parse agentOk w req).1 = some 400 ∨
       (do_POST secret parse agentOk w req).1 = some 401 ∨
       (do_POST secret parse agentOk w req).1 = some 422 ∨
       (do_POST secret parse agentOk w req).1 = some 500)) := by
  refine ⟨?_, ?_, ?_, ?_, ?_, ?_, ?_, ?_⟩
  · intro hv
    simp [do_POST, hcl, hv]
  · intro hv hp
    simp [do_POST, hcl, hv, hp]
  · intro hv e hp het
    simp [do_POST, hcl, hv, hp, het]
  · intro hv e hp t het hne hval
    simp only [do_POST, hcl, hv, hp]
    rw [het]
    simp only [Option.getD_some]
    rw [if_neg hne]
    simp [handle_event, hval]
  · intro hv hp het
    simp [do_POST, hcl, hv, hp, het]
  · intro hv e hp t het hne w' hh
    simp only [do_POST, hcl, hv, hp]
    rw [het]
    simp only [Option.getD_some]
    rw [if_neg hne]
    rw [hh]
  · intro err hv
    simp [do_POST, hcl, hv]
  · intro b hv
    cases b with
    | false => simp [do_POST, hcl, hv]
    | true =>
      cases hp : parse (req.body.take n) with
      | malformed => simp [do_POST, hcl, hv, hp]
      | nonObject =>
        by_cases het : req.eventType.getD "" = "" <;>
          simp [do_POST, hcl, hv, hp, het]
      | obj e =>
        by_cases het : req.eventType.getD "" = ""
        · simp [do_POST, hcl, hv, hp, het]
        · rcases hh : handle_event agentOk w { e with event_name := some (req.eventType.getD "") }
            with ⟨res, w'⟩
          cases res with
          | ok u =>
            simp only [do_POST, hcl, hv, hp]
            rw [if_neg het, hh]
            simp
          | error err =>
            simp only [do_POST, hcl, hv, hp]
            rw [if_neg het, hh]
            cases err <;> simp

set_option maxRecDepth 100000 in
/-- Witness for `c7_response_mapping` on a correctly signed one-byte body:
malformed JSON gives 400, an unsupported action gives 422, a valid
`issues`/`opened` payload gives 200 with one agent run, and the outcome of
the 200 request is among the five statuses. -/
theorem c7_response_mapping_witness :
    do_POST [107] (fun _ => JsonParse.malformed) true {}
      { contentLength := some 1, body := [97],
        signature256 := some (schemeTag ++ hmacSha256Hex [107] [97]),
        eventType := some "issues" } = (some 400, {}) ∧
    do_POST [107] (fun _ => JsonParse.obj { action := some "closed" }) true {}
      { contentLength := some 1, body := [97],
        signature256 := some (schemeTag ++ hmacSha256Hex [107] [97]),
        eventType := some "issues" } = (some 422, {}) ∧
    do_POST [107]
      (fun _ => JsonParse.obj { action := some "opened", issue := some ⟨123, "T"⟩ })
      true {}
      { contentLength := some 1, body := [97],
        signature256 := some (schemeTag ++ hmacSha256Hex [107] [97]),
        eventType := some "issues" } =
      (some 200,
       { agentRuns := 1,
         currentEvent := some { event_name := some "issues", action := some "opened",
                                issue := some ⟨123, "T"⟩ } }) ∧
    ((do_POST [107]
      (fun _ => JsonParse.obj { action := some "opened", issue := some ⟨123, "T"⟩ })
      true {}
      { contentLength := some 1, body := [97],
        signature256 := some (schemeTag ++ hmacSha256Hex [107] [97]),
        eventType := some "issues" }).1 = some 200 ∨
     (do_POST [107]
      (fun _ => JsonParse.obj { action := some "opened", issue := some ⟨123, "T"⟩ })
      true {}
      { contentLength := some 1, body := [97],
        signature256 := some (schemeTag ++ hmacSha256Hex [107] [97]),
        eventType := some "issues" }).1 = some 400 ∨
     (do_POST [107]
      (fun _ => JsonParse.obj { action := some "opened", issue := some ⟨123, "T"⟩ })
      true {}
      { contentLength := some 1, body := [97],
        signature256 := some (schemeTag ++ hmacSha256Hex [107] [97]),
        eventType := some "issues" }).1 = some 401 ∨
     (do_POST [107]
      (fun _ => JsonParse.obj { action := some "opened", issue := some ⟨123, "T"⟩ })
      true {}
      { contentLength := some 1, body := [97],
        signature256 := some (schemeTag ++ hmacSha256Hex [107] [97]),
        eventType := some "issues" }).1 = some 422 ∨
     (do_POST [107]
      (fun _ => JsonParse.obj { action := some "opened", issue := some ⟨123, "T"⟩ })
      true {}
      { contentLength := some 1, body := [97],
        signature256 := some (schemeTag ++ hmacSha256Hex [107] [97]),
        eventType := some "issues" }).1 = some 500) :=
  ⟨(c7_response_mapping [107] _ true {} _ 1 rfl).2.1 (by decide) rfl,
   (c7_response_mapping [107] _ true {} _ 1 rfl).2.2.2.1
      (by decide) _ rfl "issues" rfl (by decide) rfl,
   (c7_response_mapping [107] _ true {} _ 1 rfl).2.2.2.2.2.1
      (by decide) { action := some "opened", issue := some ⟨123, "T"⟩ } rfl
      "issues" rfl (by decide) _ rfl,
   (c7_response_mapping [107] _ true {} _ 1 rfl).2.2.2.2.2.2.2 true (by decide)⟩

set_option maxRecDepth 100000 in
/-- C1 (counterexample): two identical, correctly signed `issues`/`opened`
deliveries both return 200 and the agent is invoked twice — the webhook
path (`do_POST` → `handle_event` → `agent.run`) never consults the
Governor, so nothing deduplicates the replay; no event row, journal entry
or other store write is involved anywhere on this path (`do_POST` takes no
store at all). -/
theorem c1_counterexample :
    let parse : List Nat → JsonParse := fun b =>
      if b = [97] then
        JsonParse.obj { action := some "opened", issue := some ⟨123, "T"⟩ }
      else JsonParse.malformed
    let req : Request :=
      { contentLength := some 1, body := [97],
        signature256 := some (schemeTag ++ hmacSha256Hex [107] [97]),
        eventType := some "issues" }
    (do_POST [107] parse true {} req).1 = some 200 ∧
    (do_POST [107] parse true (do_POST [107] parse true {} req).2 req).1 = some 200 ∧
    (do_POST [107] parse true (do_POST [107] parse true {} req).2 req).2.agentRuns = 2 := by
  decide

/-- C1 (amended): the webhook path has no replay protection.  A correctly
signed `issues`/`opened` delivery returns 200 and invokes the agent
exactly once per delivery, without any Governor dedup check, event row or
journal entry (the handler never touches the cost optimizer or the store);
replaying the identical delivery returns 200 again and triggers a second
agent invocation. -/
theorem c1_webhook_replay (secret : List Nat) (parse : List Nat → JsonParse)
    (w : BotWorld) (req : Request) (n : Nat) (e : Event)
    (hcl : req.contentLength = some n)
    (hv : verify_signature secret (req.body.take n) (req.signature256.getD []) =
      Except.ok true)
    (hp : parse (req.body.take n) = JsonParse.obj e)
    (het : req.eventType = some "issues")
    (hact : e.action = some "opened")
    (hiss : e.issue.isSome = true) :
    do_POST secret parse true w req =
      (some 200,
       { w with
          agentRuns := w.agentRuns + 1,
          currentEvent := some { e with event_name := some "issues" } }) ∧
    do_POST secret parse true (do_POST secret parse true w req).2 req =
      (some 200,
       { w with
          agentRuns := w.agentRuns + 2,
          currentEvent := some { e with event_name := some "issues" } }) := by
  obtain ⟨subj, hs⟩ := Option.isSome_iff_exists.mp hiss
  have hhe : ∀ w0 : BotWorld, handle_event true w0 { e with event_name := some "issues" } =
      (Except.ok (),
       { w0 with
          agentRuns := w0.agentRuns + 1,
          currentEvent := some { e with event_name := some "issues" } }) := by
    intro w0
    simp [handle_event, validate_event, SUPPORTED_EVENTS, hact, handleSubject, hs]
  have h1 : do_POST secret parse true w req =
      (some 200,
       { w with
          agentRuns := w.agentRuns + 1,
          currentEvent := some { e with event_name := some "issues" } }) := by
    simp only [do_POST, hcl, hv, hp]
    rw [het]
    simp only [Option.getD_some]
    rw [if_neg (by decide : ¬ ("issues" : String) = "")]
    rw [hhe w]
  refine ⟨h1, ?_⟩
  rw [h1]
  simp only [do_POST, hcl, hv, hp]
  rw [het]
  simp only [Option.getD_some]
  rw [if_neg (by decide : ¬ ("issues" : String) = "")]
  rw [hhe _]

set_option maxRecDepth 100000 in
/-- Witness for `c1_webhook_replay` at a concrete signed delivery: the
first POST returns 200 with one agent run; replaying the identical request
returns 200 with a second agent run. -/
theorem c1_webhook_replay_witness :
    do_POST [107]
        (fun b => if b = [97] then
            JsonParse.obj { action := some "opened", issue := some ⟨123, "T"⟩ }
          else JsonParse.malformed) true {}
        { contentLength := some 1, body := [97],
          signature256 := some (schemeTag ++ hmacSha256Hex [107] [97]),
          eventType := some "issues" } =
      (some 200,
       { agentRuns := 1,
         currentEvent := some { event_name := some "issues", action := some "opened",
                                issue := some ⟨123, "T"⟩ } }) ∧
    do_POST [107]
        (fun b => if b = [97] then
            JsonParse.obj { action := some "opened", issue := some ⟨123, "T"⟩ }
          else JsonParse.malformed) true
        (do_POST [107]
          (fun b => if b = [97] then
              JsonParse.obj { action := some "opened", issue := some ⟨123, "T"⟩ }
            else JsonParse.malformed) true {}
          { contentLength := some 1, body := [97],
            signature256 := some (schemeTag ++ hmacSha256Hex [107] [97]),
            eventType := some "issues" }).2
        { contentLength := some 1, body := [97],
          signature256 := some (schemeTag ++ hmacSha256Hex [107] [97]),
          eventType := some "issues" } =
      (some 200,
       { agentRuns := 2,
         currentEvent := some { event_name := some "issues", action := some "opened",
                                issue := some ⟨123, "T"⟩ } }) :=
  c1_webhook_replay [107] _ {} _ 1
    { action := some "opened", issue := some ⟨123, "T"⟩ }
    rfl (by decide) rfl rfl rfl rfl
